import Mathlib

/-!
Shallow embedding of the RM_service ebook-ingestion pipeline
(`src/utils/ebook_handler.py` and `src/api/index.py`).

External collaborators (pdfplumber, pdf2image, pytesseract, Gemini, the
OpenAI embedding API, the Supabase store, HTTP webhooks) are modelled as
oracles: per-page extraction outcomes, a provider function for embeddings,
the `book_pages` table as a list of rows, and `Except`-valued outcomes for
the fallible calls whose success or failure drives the control flow.
Side effects (embedding-provider invocations, store inserts and updates,
webhook POSTs) are made explicit as traces so that theorems can speak
about which calls are issued.
-/

/-- Stand-in for the float vector returned by an embedding provider; the
numeric contents never matter to the control flow being verified. -/
abbrev Embedding := List Int

/-- Python's `str.strip()`: drop leading and trailing whitespace. -/
def pyStrip (s : String) : String :=
  String.mk (((s.data.dropWhile Char.isWhitespace).reverse.dropWhile Char.isWhitespace).reverse)

/-- Outcomes of the external calls made while processing one PDF page.
`textLayer = none` models an exception inside the pdfplumber text-extraction
`try` block; `some t` is the value of `page.extract_text() or ""`.
`convert = none` models an exception in `convert_from_path` (100 dpi path);
`some b` tells whether the returned image list is non-empty.
`ocr = none` models a `pytesseract.image_to_string` exception; `some s` is
its output. `geminiImage` tells whether `convert_page_to_image` (200 dpi
path) returns an image; `geminiText` is the return of
`image_to_text_gemini` (`none` covers both an exception and a falsy
`response.text`). -/
structure PdfPageOracle where
  textLayer : Option String
  convert : Option Bool
  ocr : Option String
  geminiImage : Bool
  geminiText : Option String
deriving Repr, DecidableEq

/-- The value returned by `process_pdf_page` plus instrumentation: how many
times the OCR fallback step (rasterize at 100 dpi + Tesseract) was entered,
and how many times `pytesseract.image_to_string` itself was called. -/
structure PageExtractResult where
  text : String
  ocrSteps : Nat
  tesseractCalls : Nat
deriving Repr, DecidableEq

/-- The OCR fallback block of `EBookHandler.process_pdf_page`: convert the
page to images; if that yields an image, run Tesseract; keep the OCR output
only when it has a non-empty strip; return the `text` variable stripped. -/
def runOcrFallback (o : PdfPageOracle) (text : String) : PageExtractResult :=
  match o.convert with
  | none => { text := pyStrip text, ocrSteps := 1, tesseractCalls := 0 }
  | some false => { text := pyStrip text, ocrSteps := 1, tesseractCalls := 0 }
  | some true =>
    match o.ocr with
    | none => { text := pyStrip text, ocrSteps := 1, tesseractCalls := 1 }
    | some ocr_text =>
      let text := if ocr_text ≠ "" ∧ 0 < (pyStrip ocr_text).length then ocr_text else text
      { text := pyStrip text, ocrSteps := 1, tesseractCalls := 1 }

/-- `EBookHandler.process_pdf_page`: try the text layer first; if it yields
a string whose strip is longer than 50 characters, return it (unstripped)
at once; otherwise — including when extraction raised — fall through to the
OCR block with the `text` variable holding `""` after an exception. -/
def process_pdf_page (o : PdfPageOracle) : PageExtractResult :=
  match o.textLayer with
  | some text =>
    if text ≠ "" ∧ 50 < (pyStrip text).length then
      { text := text, ocrSteps := 0, tesseractCalls := 0 }
    else
      runOcrFallback o text
  | none => runOcrFallback o ""

/-- `EBookHandler.process_pdf_page_with_gemini`: convert the page to an
image; on success ask Gemini; return the stripped response when truthy,
`""` otherwise. -/
def process_pdf_page_with_gemini (o : PdfPageOracle) : String :=
  if o.geminiImage then
    match o.geminiText with
    | some text => if text ≠ "" then pyStrip text else ""
    | none => ""
  else ""

/-- One recorded invocation of the embedding layer: the text passed in and
the `use_gemini` flag that selects between the two providers. -/
structure EmbedCall where
  text : String
  use_gemini : Bool
deriving Repr, DecidableEq

/-- `EBookHandler.generate_embedding`: dispatch on `use_gemini` to one of
the two providers (collapsed into the `provider` oracle; `none` models a
provider exception, which the method catches and turns into `None`).
Returns the trace record of the call together with the method's value. -/
def generate_embedding (provider : String → Bool → Option Embedding)
    (text : String) (use_gemini : Bool) : EmbedCall × Option Embedding :=
  ({ text := text, use_gemini := use_gemini }, provider text use_gemini)

/-- The dictionary inserted into `book_pages` by the PDF path. -/
structure PageData where
  book_id : String
  page_number : Nat
  text : String
  embedding : Option Embedding
deriving Repr, DecidableEq

/-- What one iteration of the `process_pdf` page loop did. -/
structure PageStep where
  pageNumber : Nat
  embedCalls : List EmbedCall
  written : List PageData
deriving Repr, DecidableEq

/-- The result dictionary returned by both ingestion procedures. -/
structure IngestResult where
  success : Bool
  message : String
  pageCount : Nat
deriving Repr, DecidableEq

/-- A row of the `book_pages` table. -/
structure StoredPage where
  id : Nat
  book_id : String
  page_number : Nat
  text : String
  embedding : Option Embedding
deriving Repr, DecidableEq

/-- Oracle bundle for one job: the embedding provider, the outcome of
`download_file` (`.error` = a `requests` exception with that message), the
number of pages of the downloaded PDF, the per-page external outcomes, the
current contents of `book_pages`, and the outcomes of the
`process_section_summary` step and of the two webhook POSTs. -/
structure JobEnv where
  embed : String → Bool → Option Embedding
  download : Except String Unit
  sourcePages : Nat
  pages : Nat → PdfPageOracle
  store : List StoredPage
  summaryStep : Except String Unit
  completionPost : Except String Unit
  errorPost : Except String Unit

/-- The text obtained for one page inside the `process_pdf` loop, per the
`use_gemini` branch. -/
def pageText (env : JobEnv) (use_gemini : Bool) (page_num : Nat) : String :=
  if use_gemini then process_pdf_page_with_gemini (env.pages page_num)
  else (process_pdf_page (env.pages page_num)).text

/-- One iteration of the `process_pdf` loop: extract, and when the stripped
text is non-empty, embed (the source calls `generate_embedding(text)` with
the `use_gemini` parameter omitted, so it defaults to `False`) and insert
one `book_pages` row. -/
def processOnePage (env : JobEnv) (book_id : String) (use_gemini : Bool)
    (page_num : Nat) : PageStep :=
  let text := pageText env use_gemini page_num
  if pyStrip text ≠ "" then
    let call := generate_embedding env.embed text false
    { pageNumber := page_num + 1,
      embedCalls := [call.1],
      written := [{ book_id := book_id, page_number := page_num + 1,
                    text := text, embedding := call.2 }] }
  else
    { pageNumber := page_num + 1, embedCalls := [], written := [] }

/-- Full trace of one `process_pdf` run: the per-page steps in loop order,
and the outcome (`.error` = the exception that the method re-raises). -/
structure PdfRunTrace where
  steps : List PageStep
  result : Except String IngestResult
deriving Repr

/-- `EBookHandler.process_pdf`: download (a failure aborts before any page
is touched and is re-raised), then loop over
`range(min(len(pdf.pages), page_count))` and return the success result
whose `pageCount` is that page total. -/
def process_pdf (env : JobEnv) (book_id : String) (page_count : Nat)
    (use_gemini : Bool) : PdfRunTrace :=
  match env.download with
  | .error msg => { steps := [], result := .error msg }
  | .ok _ =>
    let total_pages := min env.sourcePages page_count
    { steps := (List.range total_pages).map
        (fun n => processOnePage env book_id use_gemini n),
      result := .ok { success := true,
                      message := "PDF processed and stored successfully",
                      pageCount := total_pages } }

/-- `if text and text.strip():` — the guard under which the EPUB backfill
embeds and updates a row. -/
def hasText (r : StoredPage) : Bool :=
  r.text != "" && pyStrip r.text != ""

/-- `supabase.table('book_pages').update({"embedding": e}).eq('id', page_id)`:
set the `embedding` column of the rows whose `id` matches, leave every
other column and every other row alone. -/
def updateEmbedding (store : List StoredPage) (page_id : Nat)
    (e : Option Embedding) : List StoredPage :=
  store.map (fun r => if r.id = page_id then { r with embedding := e } else r)

/-- Full trace of one `process_epub_from_supabase` run: final store
contents, the update operations issued (row id and written embedding), the
embedding-provider calls issued, and the returned result dictionary. -/
structure BackfillTrace where
  store : List StoredPage
  updates : List (Nat × Option Embedding)
  embedCalls : List EmbedCall
  result : IngestResult
deriving Repr

/-- The `for page in response.data` loop of `process_epub_from_supabase`,
threading the store through the updates and collecting the trace and the
`processed_pages` counter. -/
def backfillLoop (embed : String → Bool → Option Embedding) (use_gemini : Bool) :
    List StoredPage → List StoredPage →
    List StoredPage × List (Nat × Option Embedding) × List EmbedCall × Nat
  | [], store => (store, [], [], 0)
  | page :: rest, store =>
    if hasText page then
      let call := generate_embedding embed page.text use_gemini
      let next := backfillLoop embed use_gemini rest (updateEmbedding store page.id call.2)
      (next.1, (page.id, call.2) :: next.2.1, call.1 :: next.2.2.1, next.2.2.2 + 1)
    else
      backfillLoop embed use_gemini rest store

/-- `EBookHandler.process_epub_from_supabase`: select the rows of
`book_pages` with this `book_id`; when none exist return the
failure-shaped result with `pageCount = 0`; otherwise run the embedding
loop and return the success result counting the rows processed. -/
def process_epub_from_supabase (store : List StoredPage)
    (embed : String → Bool → Option Embedding) (book_id : String)
    (use_gemini : Bool) : BackfillTrace :=
  let rows := store.filter (fun r => r.book_id == book_id)
  if rows.isEmpty then
    { store := store, updates := [], embedCalls := [],
      result := { success := false,
                  message := "No pages found in Supabase for this book",
                  pageCount := 0 } }
  else
    let out := backfillLoop embed use_gemini rows store
    { store := out.1, updates := out.2.1, embedCalls := out.2.2.1,
      result := { success := true,
                  message := "Embeddings generated and stored successfully",
                  pageCount := out.2.2.2 } }

/-- One webhook POST payload built by `process_ebook_async`. -/
structure WebhookPayload where
  book_id : String
  status : String
  message : String
  result : Option IngestResult
deriving Repr, DecidableEq

/-- Trace of one `process_ebook_async` run: the webhook POSTs attempted
(payload paired with the delivery outcome) and the exception, if any, that
escapes the function (and hence the worker thread). -/
structure AsyncTrace where
  posts : List (WebhookPayload × Except String Unit)
  raised : Option String
deriving Repr

/-- `process_ebook_async` from `src/api/index.py`: run the ingestion
procedure selected by `file_type`, then the summary step; on success POST
the `completed` payload when a callback URL is present, catching a
delivery failure (logged only); on any exception POST the `error` payload
when a callback URL is present — that POST is not wrapped in `try`, so its
failure escapes the function. -/
def process_ebook_async (env : JobEnv) (book_id : String) (page_count : Nat)
    (file_type : String) (callback_url : Option String)
    (use_gemini : Bool) : AsyncTrace :=
  let jobOutcome : Except String (IngestResult × String) :=
    if file_type == "epub" then
      let tr := process_epub_from_supabase env.store env.embed book_id use_gemini
      match env.summaryStep with
      | .error m => .error m
      | .ok _ => .ok (tr.result,
          "Ebook embedding generation completed successfully for file type: "
            ++ file_type ++ ". Summary generation completed.")
    else
      match (process_pdf env book_id page_count use_gemini).result with
      | .error m => .error m
      | .ok r =>
        match env.summaryStep with
        | .error m => .error m
        | .ok _ => .ok (r,
            "Ebook processing completed successfully for file type: "
              ++ file_type ++ ". Summary generation completed.")
  match jobOutcome with
  | .ok rm =>
    match callback_url with
    | none => { posts := [], raised := none }
    | some _ =>
      { posts := [({ book_id := book_id, status := "completed",
                     message := rm.2, result := some rm.1 },
                   env.completionPost)],
        raised := none }
  | .error m =>
    match callback_url with
    | none => { posts := [], raised := none }
    | some _ =>
      let payload : WebhookPayload :=
        { book_id := book_id, status := "error", message := m, result := none }
      match env.errorPost with
      | .ok _ => { posts := [(payload, .ok ())], raised := none }
      | .error pm => { posts := [(payload, .error pm)], raised := some pm }

/-- Stripping the empty string gives the empty string. -/
theorem pyStrip_empty : pyStrip "" = "" := rfl

/-- A string whose strip is non-empty is itself non-empty. -/
theorem ne_empty_of_pyStrip_length_pos {t : String} (h : 0 < (pyStrip t).length) :
    t ≠ "" := by
  intro he
  subst he
  rw [pyStrip_empty] at h
  simp at h

/-- The OCR fallback block is entered exactly once whenever control reaches it. -/
theorem runOcrFallback_ocrSteps (o : PdfPageOracle) (text : String) :
    (runOcrFallback o text).ocrSteps = 1 := by
  unfold runOcrFallback
  rcases o.convert with _ | b
  · rfl
  · cases b
    · rfl
    · rcases o.ocr with _ | s <;> rfl

/-- Claim C1: with `use_vision_model = false`, the OCR fallback step
(rasterization plus Tesseract recognition) is entered exactly once when the
text layer yields a string whose strip has at most 50 characters or when
text-layer extraction raises, and never when the stripped text-layer string
exceeds 50 characters — in which case the extracted string is returned
immediately, untouched. -/
theorem process_pdf_page_ocr_iff (o : PdfPageOracle) :
    ((process_pdf_page o).ocrSteps =
      match o.textLayer with
      | none => 1
      | some t => if 50 < (pyStrip t).length then 0 else 1) ∧
    (∀ t, o.textLayer = some t → 50 < (pyStrip t).length →
      process_pdf_page o = { text := t, ocrSteps := 0, tesseractCalls := 0 }) := by
  constructor
  · rcases h : o.textLayer with _ | t
    · simp [process_pdf_page, h, runOcrFallback_ocrSteps]
    · by_cases h50 : 50 < (pyStrip t).length
      · have ht : t ≠ "" := ne_empty_of_pyStrip_length_pos (Nat.lt_of_le_of_lt (Nat.zero_le 50) h50)
        simp [process_pdf_page, h, h50, ht]
      · simp [process_pdf_page, h, h50, runOcrFallback_ocrSteps]
  · intro t ht h50
    have hne : t ≠ "" := ne_empty_of_pyStrip_length_pos (Nat.lt_of_le_of_lt (Nat.zero_le 50) h50)
    simp [process_pdf_page, ht, h50, hne]

/-- Witness for C1: a page with a rich text layer is returned as-is with
the OCR step never entered. -/
theorem process_pdf_page_ocr_iff_witness :
    process_pdf_page
        { textLayer := some "This text layer is certainly longer than fifty characters in total length.",
          convert := some true, ocr := some "ocr", geminiImage := false, geminiText := none }
      = { text := "This text layer is certainly longer than fifty characters in total length.",
          ocrSteps := 0, tesseractCalls := 0 } :=
  (process_pdf_page_ocr_iff _).2 _ rfl (by decide)

/-- The value held by the `text` variable after the text-extraction block of
`process_pdf_page`: the extracted string, or `""` when extraction raised. -/
def textLayerValue (o : PdfPageOracle) : String :=
  match o.textLayer with
  | some t => t
  | none => ""

/-- Claim C5 counterexample: text layer yields `"short"` (at most 50
characters, so the OCR fallback runs) and OCR produces the empty string;
the claim says the return value is the trimmed OCR text, i.e. `""`, but
the code keeps the `text` variable and returns the stripped text-layer
string `"short"`. -/
theorem process_pdf_page_fallback_counterexample :
    (process_pdf_page
        { textLayer := some "short", convert := some true, ocr := some "",
          geminiImage := false, geminiText := none }).tesseractCalls = 1 ∧
    (process_pdf_page
        { textLayer := some "short", convert := some true, ocr := some "",
          geminiImage := false, geminiText := none }).text = "short" ∧
    ("short" : String) ≠ pyStrip "" := by
  refine ⟨by decide, by decide, by decide⟩

/-- Claim C5 (amended): when the text layer is insufficient (stripped
length at most 50, including the extraction-error case), the return value
is the stripped OCR output when rasterization succeeded and OCR produced a
string with non-empty strip; otherwise it is the stripped text-layer
string (empty when extraction raised or produced nothing). -/
theorem process_pdf_page_fallback_return (o : PdfPageOracle)
    (h : ∀ t, o.textLayer = some t → (pyStrip t).length ≤ 50) :
    (process_pdf_page o).text =
      match o.convert, o.ocr with
      | some true, some s =>
          if s ≠ "" ∧ 0 < (pyStrip s).length then pyStrip s
          else pyStrip (textLayerValue o)
      | some true, none => pyStrip (textLayerValue o)
      | some false, _ => pyStrip (textLayerValue o)
      | none, _ => pyStrip (textLayerValue o) := by
  have hfall : ∀ text, (process_pdf_page o).text = (runOcrFallback o text).text →
      text = textLayerValue o →
      (process_pdf_page o).text =
        match o.convert, o.ocr with
        | some true, some s =>
            if s ≠ "" ∧ 0 < (pyStrip s).length then pyStrip s
            else pyStrip (textLayerValue o)
        | some true, none => pyStrip (textLayerValue o)
        | some false, _ => pyStrip (textLayerValue o)
        | none, _ => pyStrip (textLayerValue o) := by
    intro text heq htv
    subst htv
    rw [heq]
    unfold runOcrFallback
    rcases o.convert with _ | b
    · rfl
    · cases b
      · rfl
      · rcases o.ocr with _ | s
        · rfl
        · by_cases hs : s ≠ "" ∧ 0 < (pyStrip s).length <;> simp [hs]
  rcases ht : o.textLayer with _ | t
  · exact hfall "" (by simp [process_pdf_page, ht]) (by simp [textLayerValue, ht])
  · have h50 : ¬ 50 < (pyStrip t).length := by
      exact Nat.not_lt.mpr (h t ht)
    refine hfall t ?_ (by simp [textLayerValue, ht])
    simp [process_pdf_page, ht, h50]

/-- Witness for amended C5: a short text layer followed by successful OCR
returns the stripped OCR output. -/
theorem process_pdf_page_fallback_return_witness :
    (process_pdf_page
        { textLayer := some "short", convert := some true,
          ocr := some "  recognized page text  ",
          geminiImage := false, geminiText := none }).text = "recognized page text" := by
  have h := process_pdf_page_fallback_return
    { textLayer := some "short", convert := some true,
      ocr := some "  recognized page text  ",
      geminiImage := false, geminiText := none }
    (by intro t ht; injection ht with ht'; subst ht'; decide)
  rw [h]
  decide

/-- Each loop iteration reports page number `page_num + 1` whatever the
extraction outcome. -/
theorem processOnePage_pageNumber (env : JobEnv) (book_id : String)
    (use_gemini : Bool) (page_num : Nat) :
    (processOnePage env book_id use_gemini page_num).pageNumber = page_num + 1 := by
  unfold processOnePage
  by_cases h : pyStrip (pageText env use_gemini page_num) ≠ "" <;> simp [h]

/-- Claim C2: when the download succeeds, the page loop attempts the pages
`1, 2, ..., min(sourcePageCount, pageCountCap)` in that order, each exactly
once, and the returned result reports success with `pageCount` equal to
that number of pages examined. -/
theorem process_pdf_attempts_min (env : JobEnv) (book_id : String)
    (page_count : Nat) (use_gemini : Bool) (h : env.download = .ok ()) :
    ((process_pdf env book_id page_count use_gemini).steps.map (fun s => s.pageNumber)
        = (List.range (min env.sourcePages page_count)).map (fun n => n + 1)) ∧
    (process_pdf env book_id page_count use_gemini).result
        = .ok { success := true,
                message := "PDF processed and stored successfully",
                pageCount := min env.sourcePages page_count } := by
  constructor
  · simp [process_pdf, h, List.map_map, Function.comp_def, processOnePage_pageNumber]
  · simp [process_pdf, h]

/-- Page oracle for a page with a healthy text layer. -/
def richPage : PdfPageOracle :=
  { textLayer := some "This page has a perfectly healthy text layer holding far more than fifty characters.",
    convert := some true, ocr := some "ocr text",
    geminiImage := true, geminiText := some "gemini text" }

/-- Page oracle for a page whose text layer and OCR both come back empty. -/
def blankPage : PdfPageOracle :=
  { textLayer := some "", convert := some false, ocr := none,
    geminiImage := false, geminiText := none }

/-- An embedding provider that always answers with a one-entry vector. -/
def constProvider : String → Bool → Option Embedding :=
  fun _ _ => some [7]

/-- A job environment in which everything external succeeds: a two-page
PDF whose first page is rich and whose second page is blank. -/
def envOk : JobEnv :=
  { embed := constProvider, download := .ok (), sourcePages := 2,
    pages := fun n => if n = 0 then richPage else blankPage,
    store := [], summaryStep := .ok (),
    completionPost := .ok (), errorPost := .ok () }

/-- Witness for C2: the two-page sample capped at 5 pages attempts pages
1 and 2 and reports `pageCount = 2`. -/
theorem process_pdf_attempts_min_witness :
    ((process_pdf envOk "b1" 5 false).steps.map (fun s => s.pageNumber) = [1, 2]) ∧
    (process_pdf envOk "b1" 5 false).result
        = .ok { success := true,
                message := "PDF processed and stored successfully",
                pageCount := 2 } := by
  have h := process_pdf_attempts_min envOk "b1" 5 false rfl
  exact ⟨by rw [h.1]; decide, h.2⟩

/-- A row inserted by a loop iteration carries that iteration's page number
and a non-blank extracted text. -/
theorem processOnePage_written_mem (env : JobEnv) (book_id : String)
    (use_gemini : Bool) (page_num : Nat) (r : PageData)
    (hr : r ∈ (processOnePage env book_id use_gemini page_num).written) :
    r.page_number = page_num + 1 ∧ pyStrip (pageText env use_gemini page_num) ≠ "" := by
  unfold processOnePage at hr
  by_cases h : pyStrip (pageText env use_gemini page_num) ≠ ""
  · simp [h] at hr
    subst hr
    exact ⟨rfl, h⟩
  · simp [h] at hr

/-- A blank page makes its loop iteration a no-op apart from the counter. -/
theorem processOnePage_blank (env : JobEnv) (book_id : String)
    (use_gemini : Bool) (page_num : Nat)
    (h : pyStrip (pageText env use_gemini page_num) = "") :
    processOnePage env book_id use_gemini page_num
      = { pageNumber := page_num + 1, embedCalls := [], written := [] } := by
  unfold processOnePage
  simp [h]

/-- Claim C3: when a page's full extraction strategy produces text with an
empty strip, the run writes no `book_pages` row for that page, issues no
embedding call for it, and still attempts every page of the range. -/
theorem process_pdf_skips_blank (env : JobEnv) (book_id : String)
    (page_count : Nat) (use_gemini : Bool) (n : Nat)
    (hdl : env.download = .ok ())
    (hblank : pyStrip (pageText env use_gemini n) = "") :
    ((process_pdf env book_id page_count use_gemini).steps.length
        = min env.sourcePages page_count) ∧
    (∀ s ∈ (process_pdf env book_id page_count use_gemini).steps,
        ∀ r ∈ s.written, r.page_number ≠ n + 1) ∧
    (∀ s ∈ (process_pdf env book_id page_count use_gemini).steps,
        s.pageNumber = n + 1 → s.embedCalls = [] ∧ s.written = []) := by
  refine ⟨by simp [process_pdf, hdl], ?_, ?_⟩
  · intro s hs r hr
    simp [process_pdf, hdl] at hs
    obtain ⟨m, -, hm⟩ := hs
    subst hm
    obtain ⟨hpn, hne⟩ := processOnePage_written_mem env book_id use_gemini m r hr
    intro hcontra
    have hmn : m = n := by omega
    subst hmn
    exact hne hblank
  · intro s hs hpn
    simp [process_pdf, hdl] at hs
    obtain ⟨m, -, hm⟩ := hs
    subst hm
    rw [processOnePage_pageNumber] at hpn
    have hmn : m = n := by omega
    subst hmn
    rw [processOnePage_blank env book_id use_gemini m hblank]
    exact ⟨rfl, rfl⟩

/-- Witness for C3: in the sample run, page 2 is blank, both pages are
still attempted, and iteration 2 writes nothing and embeds nothing. -/
theorem process_pdf_skips_blank_witness :
    (process_pdf envOk "b1" 5 false).steps.length = 2 ∧
    (processOnePage envOk "b1" false 1).embedCalls = [] ∧
    (processOnePage envOk "b1" false 1).written = [] := by
  have h := process_pdf_skips_blank envOk "b1" 5 false 1 rfl (by decide)
  have hmem : processOnePage envOk "b1" false 1 ∈ (process_pdf envOk "b1" 5 false).steps := by
    decide
  have h2 := h.2.2 (processOnePage envOk "b1" false 1) hmem (by decide)
  exact ⟨h.1, h2.1, h2.2⟩

/-- The columns of a `book_pages` row other than `embedding`. -/
def recordSkeleton (r : StoredPage) : Nat × String × Nat × String :=
  (r.id, r.book_id, r.page_number, r.text)

/-- An embedding update rewrites no column other than `embedding` and
neither adds nor removes rows. -/
theorem updateEmbedding_skeleton (page_id : Nat) (e : Option Embedding) :
    ∀ store : List StoredPage,
      (updateEmbedding store page_id e).map recordSkeleton
        = store.map recordSkeleton := by
  intro store
  induction store with
  | nil => rfl
  | cons a l ih =>
    simp only [updateEmbedding, List.map_cons] at ih ⊢
    refine congrArg₂ List.cons ?_ ih
    by_cases h : a.id = page_id <;> simp [recordSkeleton, h]

/-- Characterization of the backfill loop: the rows embedded and updated
are exactly the selected rows passing the `hasText` guard, in order, and
the `processed_pages` counter counts them. -/
theorem backfillLoop_spec (embed : String → Bool → Option Embedding)
    (use_gemini : Bool) :
    ∀ (rows store : List StoredPage),
      (backfillLoop embed use_gemini rows store).2.1
          = (rows.filter hasText).map (fun r => (r.id, embed r.text use_gemini)) ∧
      (backfillLoop embed use_gemini rows store).2.2.1
          = (rows.filter hasText).map
              (fun r => ({ text := r.text, use_gemini := use_gemini } : EmbedCall)) ∧
      (backfillLoop embed use_gemini rows store).2.2.2
          = (rows.filter hasText).length := by
  intro rows
  induction rows with
  | nil => intro store; simp [backfillLoop]
  | cons page rest ih =>
    intro store
    by_cases h : hasText page
    · simpa [backfillLoop, h, List.filter_cons_of_pos, generate_embedding]
        using ih (updateEmbedding store page.id (embed page.text use_gemini))
    · simpa [backfillLoop, h, List.filter_cons_of_neg] using ih store

/-- The backfill loop leaves every column but `embedding` of every row of
the store untouched and never deletes a row. -/
theorem backfillLoop_store_skeleton (embed : String → Bool → Option Embedding)
    (use_gemini : Bool) :
    ∀ (rows store : List StoredPage),
      ((backfillLoop embed use_gemini rows store).1).map recordSkeleton
        = store.map recordSkeleton := by
  intro rows
  induction rows with
  | nil => intro store; simp [backfillLoop]
  | cons page rest ih =>
    intro store
    by_cases h : hasText page
    · simp [backfillLoop, h, ih, updateEmbedding_skeleton]
    · simp [backfillLoop, h, ih]

/-- Claim C6: the EPUB backfill modifies at most the `embedding` column:
the `id`, `book_id`, `page_number` and `text` of every row of the store
are unchanged, and no row is deleted (the row count is preserved). -/
theorem backfill_frame (store : List StoredPage)
    (embed : String → Bool → Option Embedding) (book_id : String)
    (use_gemini : Bool) :
    ((process_epub_from_supabase store embed book_id use_gemini).store.map recordSkeleton
        = store.map recordSkeleton) ∧
    (process_epub_from_supabase store embed book_id use_gemini).store.length
        = store.length := by
  have hframe :
      (process_epub_from_supabase store embed book_id use_gemini).store.map recordSkeleton
        = store.map recordSkeleton := by
    by_cases h : (store.filter (fun r => r.book_id == book_id)).isEmpty <;>
      simp [process_epub_from_supabase, h, backfillLoop_store_skeleton]
  refine ⟨hframe, ?_⟩
  have := congrArg List.length hframe
  simpa using this

/-- Claim C7: the EPUB backfill on a book with no stored pages returns the
failure-shaped result with `pageCount = 0`, issues no embedding calls and
no updates, and leaves the store exactly as it was — a plain return, since
this branch performs no fallible operation at all. -/
theorem backfill_no_rows (store : List StoredPage)
    (embed : String → Bool → Option Embedding) (book_id : String)
    (use_gemini : Bool)
    (h : store.filter (fun r => r.book_id == book_id) = []) :
    process_epub_from_supabase store embed book_id use_gemini
      = { store := store, updates := [], embedCalls := [],
          result := { success := false,
                      message := "No pages found in Supabase for this book",
                      pageCount := 0 } } := by
  simp [process_epub_from_supabase, h]

/-- A store holding a single page of a different book. -/
def otherBookStore : List StoredPage :=
  [{ id := 9, book_id := "other-book", page_number := 1,
     text := "some text", embedding := none }]

/-- Witness for C7: backfilling a book absent from the store. -/
theorem backfill_no_rows_witness :
    process_epub_from_supabase otherBookStore constProvider "missing-book" false
      = { store := otherBookStore, updates := [], embedCalls := [],
          result := { success := false,
                      message := "No pages found in Supabase for this book",
                      pageCount := 0 } } :=
  backfill_no_rows otherBookStore constProvider "missing-book" false (by decide)

/-- A store holding one page of book `"b"` whose text is a single space:
non-empty, but blank after stripping. -/
def blankTextStore : List StoredPage :=
  [{ id := 1, book_id := "b", page_number := 1, text := " ", embedding := none }]

/-- Claim C8 counterexample: a stored page whose text is `" "` is
non-empty, so the claim requires an embedding call and an update for it
and a `pageCount` of 1; the code's `if text and text.strip():` guard skips
it, performs no call and no update, and returns `pageCount = 0`. -/
theorem backfill_blank_text_counterexample :
    (process_epub_from_supabase blankTextStore constProvider "b" false).updates = [] ∧
    (process_epub_from_supabase blankTextStore constProvider "b" false).embedCalls = [] ∧
    (process_epub_from_supabase blankTextStore constProvider "b" false).result.pageCount = 0 ∧
    (" " : String) ≠ "" := by
  refine ⟨by decide, by decide, by decide, by decide⟩

/-- Claim C8 (amended): for a book with at least one stored page, the
backfill embeds and updates in place exactly the selected rows whose text
is non-empty and non-blank after stripping (the `if text and text.strip():`
guard), in order, and the success result's `pageCount` is the number of
rows so updated. -/
theorem backfill_updates_nonblank (store : List StoredPage)
    (embed : String → Bool → Option Embedding) (book_id : String)
    (use_gemini : Bool)
    (h : store.filter (fun r => r.book_id == book_id) ≠ []) :
    (process_epub_from_supabase store embed book_id use_gemini).updates
        = ((store.filter (fun r => r.book_id == book_id)).filter hasText).map
            (fun r => (r.id, embed r.text use_gemini)) ∧
    (process_epub_from_supabase store embed book_id use_gemini).embedCalls
        = ((store.filter (fun r => r.book_id == book_id)).filter hasText).map
            (fun r => ({ text := r.text, use_gemini := use_gemini } : EmbedCall)) ∧
    (process_epub_from_supabase store embed book_id use_gemini).result
        = { success := true,
            message := "Embeddings generated and stored successfully",
            pageCount := ((store.filter (fun r => r.book_id == book_id)).filter hasText).length } := by
  have hne : ¬ (store.filter (fun r => r.book_id == book_id)).isEmpty := by
    simpa [List.isEmpty_iff] using h
  have hspec := backfillLoop_spec embed use_gemini
    (store.filter (fun r => r.book_id == book_id)) store
  refine ⟨?_, ?_, ?_⟩
  · simpa [process_epub_from_supabase, hne] using hspec.1
  · simpa [process_epub_from_supabase, hne] using hspec.2.1
  · simp [process_epub_from_supabase, hne, hspec.2.2]

/-- A four-page store for book `"b"` in which page 3 has blank text —
scenario C of the specification. -/
def scenarioCStore : List StoredPage :=
  [{ id := 1, book_id := "b", page_number := 1, text := "alpha", embedding := none },
   { id := 2, book_id := "b", page_number := 2, text := "beta", embedding := none },
   { id := 3, book_id := "b", page_number := 3, text := "", embedding := none },
   { id := 4, book_id := "b", page_number := 4, text := "delta", embedding := none }]

/-- Witness for amended C8: scenario C updates the three non-blank pages
and reports `pageCount = 3`. -/
theorem backfill_updates_nonblank_witness :
    (process_epub_from_supabase scenarioCStore constProvider "b" false).updates
        = [(1, some [7]), (2, some [7]), (4, some [7])] ∧
    (process_epub_from_supabase scenarioCStore constProvider "b" false).result
        = { success := true,
            message := "Embeddings generated and stored successfully",
            pageCount := 3 } := by
  have h := backfill_updates_nonblank scenarioCStore constProvider "b" false (by decide)
  refine ⟨?_, ?_⟩
  · rw [h.1]; decide
  · rw [h.2.2]; decide

/-- Claim C10: every embedding call issued by the PDF path carries the
provider flag `false` (the OpenAI backend) whatever the job's
`use_gemini` flag, which selects the extraction strategy only; the EPUB
backfill, by contrast, forwards its flag to the embedder. -/
theorem embedding_provider_selection (env : JobEnv) (book_id : String)
    (page_count : Nat) (use_gemini : Bool) (store : List StoredPage)
    (embed : String → Bool → Option Embedding) (epub_book_id : String)
    (epub_use_gemini : Bool) :
    (∀ s ∈ (process_pdf env book_id page_count use_gemini).steps,
        ∀ c ∈ s.embedCalls, c.use_gemini = false) ∧
    (∀ c ∈ (process_epub_from_supabase store embed epub_book_id epub_use_gemini).embedCalls,
        c.use_gemini = epub_use_gemini) := by
  constructor
  · intro s hs c hc
    rcases hdl : env.download with m | u
    · simp [process_pdf, hdl] at hs
    · simp [process_pdf, hdl] at hs
      obtain ⟨m, -, hm⟩ := hs
      subst hm
      unfold processOnePage at hc
      by_cases hb : pyStrip (pageText env use_gemini m) ≠ "" <;> simp [hb, generate_embedding] at hc
      subst hc
      rfl
  · intro c hc
    by_cases h : (store.filter (fun r => r.book_id == epub_book_id)).isEmpty
    · simp [process_epub_from_supabase, h] at hc
    · have hspec := backfillLoop_spec embed epub_use_gemini
        (store.filter (fun r => r.book_id == epub_book_id)) store
      simp [process_epub_from_supabase, h, hspec.2.1] at hc
      obtain ⟨r, -, hr⟩ := hc
      rw [← hr]

/-- Witness for C10: a `use_gemini = true` PDF job still embeds with the
flag `false`, while an EPUB backfill run with `use_gemini = true` forwards
`true`. -/
theorem embedding_provider_selection_witness :
    (({ text := "gemini text", use_gemini := false } : EmbedCall)).use_gemini = false ∧
    (({ text := "alpha", use_gemini := true } : EmbedCall)).use_gemini = true := by
  have h := embedding_provider_selection envOk "b1" 5 true scenarioCStore constProvider "b" true
  refine ⟨?_, ?_⟩
  · refine h.1 (processOnePage envOk "b1" true 0) ?_ _ ?_
    · decide
    · decide
  · refine h.2 _ ?_
    decide

/-- Claim C4: when the download fails, `process_pdf` touches no page (no
`book_pages` row is inserted) and re-raises the download error; the job
runner then, when a callback URL is present, POSTs exactly one payload
with status `"error"` carrying the download error message. -/
theorem download_failure_aborts (env : JobEnv) (book_id : String)
    (page_count : Nat) (file_type : String) (callback_url : String)
    (use_gemini : Bool) (m : String)
    (hft : file_type ≠ "epub") (hdl : env.download = .error m) :
    ((process_pdf env book_id page_count use_gemini).steps = [] ∧
     (process_pdf env book_id page_count use_gemini).result = Except.error m) ∧
    ((process_ebook_async env book_id page_count file_type (some callback_url) use_gemini).posts.map
        (fun p => p.1)
      = [{ book_id := book_id, status := "error", message := m, result := none }]) := by
  have hft' : (file_type == "epub") = false := by simpa using hft
  refine ⟨⟨by simp [process_pdf, hdl], by simp [process_pdf, hdl]⟩, ?_⟩
  rcases hep : env.errorPost with pm | u <;>
    simp [process_ebook_async, hft', process_pdf, hdl, hep]

/-- A job environment whose download fails. -/
def envDownloadFail : JobEnv :=
  { envOk with download := .error "connection refused" }

/-- Witness for C4: a failed download writes nothing and reports the
download error through the callback. -/
theorem download_failure_aborts_witness :
    (process_pdf envDownloadFail "b1" 5 false).steps = [] ∧
    ((process_ebook_async envDownloadFail "b1" 5 "pdf" (some "cb-url") false).posts.map
        (fun p => p.1)
      = [{ book_id := "b1", status := "error", message := "connection refused",
           result := none }]) := by
  have h := download_failure_aborts envDownloadFail "b1" 5 "pdf" "cb-url" false
    "connection refused" (by decide) rfl
  exact ⟨h.1.1, h.2⟩

/-- A job environment whose download fails and whose error-webhook POST
also fails. -/
def envWebhookDown : JobEnv :=
  { envOk with download := .error "download failed",
               errorPost := .error "webhook down" }

/-- Claim C9 counterexample: a failed job with a callback URL whose
error-webhook POST fails. The claim says webhook delivery failure never
raises an exception out of the job runner; the error-path POST is not
wrapped in `try`, so the delivery failure escapes `process_ebook_async`. -/
theorem webhook_failure_escalates_counterexample :
    ((process_ebook_async envWebhookDown "b1" 1 "pdf" (some "cb-url") false).posts.map
        (fun p => p.1)
      = [{ book_id := "b1", status := "error", message := "download failed",
           result := none }]) ∧
    (process_ebook_async envWebhookDown "b1" 1 "pdf" (some "cb-url") false).raised
      = some "webhook down" := by
  refine ⟨by decide, by decide⟩

/-- Claim C9 (amended): failure to deliver the completion webhook is
caught — nothing escapes the job runner and the POST is attempted exactly
once, with no retry; failure to deliver the failure webhook is not caught
and escapes the job runner, likewise without retry. -/
theorem webhook_failure_policy (env1 env2 : JobEnv) (book_id : String)
    (page_count : Nat) (file_type : String) (callback_url : String)
    (use_gemini : Bool) (m pm : String)
    (hft : file_type ≠ "epub")
    (h1d : env1.download = .ok ()) (h1s : env1.summaryStep = .ok ())
    (h2d : env2.download = .error m) (h2p : env2.errorPost = .error pm) :
    ((process_ebook_async env1 book_id page_count file_type (some callback_url) use_gemini).raised
        = none ∧
     (process_ebook_async env1 book_id page_count file_type (some callback_url) use_gemini).posts.length
        = 1) ∧
    ((process_ebook_async env2 book_id page_count file_type (some callback_url) use_gemini).raised
        = some pm ∧
     (process_ebook_async env2 book_id page_count file_type (some callback_url) use_gemini).posts.length
        = 1) := by
  have hft' : (file_type == "epub") = false := by simpa using hft
  constructor
  · constructor <;> simp [process_ebook_async, hft', process_pdf, h1d, h1s]
  · constructor <;> simp [process_ebook_async, hft', process_pdf, h2d, h2p]

/-- A job environment that succeeds but whose completion-webhook POST
fails. -/
def envCompletionFail : JobEnv :=
  { envOk with completionPost := .error "callback timeout" }

/-- Witness for amended C9: a failed completion POST escapes nothing,
while a failed error POST escapes with its message. -/
theorem webhook_failure_policy_witness :
    ((process_ebook_async envCompletionFail "b1" 5 "pdf" (some "cb-url") false).raised
        = none) ∧
    ((process_ebook_async envWebhookDown "b1" 5 "pdf" (some "cb-url") false).raised
        = some "webhook down") := by
  have h := webhook_failure_policy envCompletionFail envWebhookDown "b1" 5 "pdf" "cb-url"
    false "download failed" "webhook down" (by decide) rfl rfl rfl rfl
  exact ⟨h.1.1, h.2.1⟩
